import Mathlib

/-!
Shallow embedding of src/otp.js (OTP Playwright server).

The JS program keeps a `Map` of sessions, each owning one Playwright page
(tab) and one browsing context, plus a lazily created shared browser.
We model:
  - the session table as an association list `List (String × Session)`
    with the exact JS `Map` get/set/delete behaviour;
  - live tabs and contexts as lists of numeric resource ids, so that
    "the tab was released" is expressible (`id ∉ livePages`);
  - the shared browser handle `_browserPromise` as a `Bool`
    (`false` corresponds to the handle being `null`);
  - the outcome of each external Playwright interaction as an explicit
    environment value (the automation library is outside the program).
Timestamps are `Nat` milliseconds; `Date.now()` becomes a `now` argument.
-/

-- ─────────────────────────────────────────────
--  Configuration (src/otp.js CONFIG)
-- ─────────────────────────────────────────────

def SESSION_MAX_AGE_MS : Nat := 30 * 60 * 1000

def OTP_TTL_MS : Nat := 5 * 60 * 1000

def CLEANUP_INTERVAL_MS : Nat := 5 * 60 * 1000

def PAGE_TIMEOUT_MS : Nat := 10000

-- ─────────────────────────────────────────────
--  Session store entry
--  { page, context, phone, otp, createdAt, otpExpiresAt, status }
-- ─────────────────────────────────────────────

structure Session where
  page : Nat
  context : Nat
  phone : String
  otp : String
  createdAt : Nat
  otpExpiresAt : Nat
  status : String
deriving DecidableEq

/-- Whole-program mutable state: the `userSessions` map, the
`_browserPromise` handle (as a `Bool`), the sets of still-open pages and
contexts, and a fresh-id counter for newly opened pages/contexts. -/
structure St where
  sessions : List (String × Session)
  browser : Bool
  livePages : List Nat
  liveContexts : List Nat
  nextId : Nat
deriving DecidableEq

-- JS `Map.get`: first (and, for a real Map, only) binding of the key.
def mapGet : List (String × Session) → String → Option Session
  | [], _ => none
  | (k, v) :: rest, id => if k = id then some v else mapGet rest id

-- JS `Map.delete`: removes the binding of the key, if any.
def mapDelete : List (String × Session) → String → List (String × Session)
  | [], _ => []
  | (k, v) :: rest, id => if k = id then rest else (k, v) :: mapDelete rest id

-- JS `Map.set`: overwrites in place if the key exists, else appends.
def mapSet : List (String × Session) → String → Session → List (String × Session)
  | [], id, s => [(id, s)]
  | (k, v) :: rest, id, s => if k = id then (id, s) :: rest else (k, v) :: mapSet rest id s

/-- Well-formedness maintained by the JS runtime for us: `Map` keys are
unique, a page/context object is a single resource (no duplicate ids),
and the fresh-id counter dominates every allocated id. -/
def St.WF (st : St) : Prop :=
  (st.sessions.map Prod.fst).Nodup ∧
  st.livePages.Nodup ∧
  st.liveContexts.Nodup ∧
  (∀ p ∈ st.sessions, p.2.page < st.nextId ∧ p.2.context < st.nextId) ∧
  (∀ x ∈ st.livePages, x < st.nextId) ∧
  (∀ x ∈ st.liveContexts, x < st.nextId)

instance (st : St) : Decidable st.WF := by
  unfold St.WF
  infer_instance

-- ─────────────────────────────────────────────
--  getBrowser / resetBrowser
-- ─────────────────────────────────────────────

/-- `getBrowser`: if `_browserPromise` is null, launch (on launch failure
the handle is reset to null and the error is rethrown); otherwise reuse.
`launchOk` is the environment: whether `chromium.launch` succeeds. -/
def getBrowser (launchOk : Bool) (st : St) : Except String St :=
  if st.browser = false then
    if launchOk then Except.ok { st with browser := true }
    else Except.error "browser launch failed"
  else Except.ok st

/-- `resetBrowser`: closes the browser if the handle is set, then nulls it. -/
def resetBrowser (st : St) : St :=
  if st.browser then { st with browser := false } else st

-- ─────────────────────────────────────────────
--  closeSession
-- ─────────────────────────────────────────────

structure CloseResult where
  success : Bool
  message : Option String
  error : Option String
deriving DecidableEq

/-- `closeSession(sessionId)`: missing session gives `success:false`;
otherwise close the page if it is still open, close the context, and
delete the map entry (errors while closing are caught and ignored). -/
def closeSession (sessionId : String) (st : St) : CloseResult × St :=
  match mapGet st.sessions sessionId with
  | none => ({ success := false, message := none, error := some "Session not found" }, st)
  | some s =>
      let lp := if s.page ∈ st.livePages then st.livePages.erase s.page else st.livePages
      let lc := st.liveContexts.erase s.context
      ({ success := true, message := some ("Session " ++ sessionId ++ " closed"),
         error := none },
       { st with sessions := mapDelete st.sessions sessionId,
                 livePages := lp, liveContexts := lc })

-- ─────────────────────────────────────────────
--  createSession
-- ─────────────────────────────────────────────

/-- Outcome of the Playwright steps inside the `try` of `createSession`:
`newContext` may fail; then `newPage` may fail; then any of
goto / waitForSelector / fill / click / waitForFunction / innerText may
fail (all handled identically by the catch block); or everything
succeeds and the page shows a six-character OTP. -/
inductive CreateStep where
  | failNewContext (msg : String)
  | failNewPage (msg : String)
  | failPageStep (msg : String)
  | ok (otp : String)
deriving DecidableEq

structure CreateEnv where
  launchOk : Bool
  step : CreateStep
deriving DecidableEq

structure CreateResult where
  success : Bool
  session_id : String
  otp : String
  phone : String
  expires_in_seconds : Nat
  message : String
deriving DecidableEq

/-- Body of `createSession` after the stale-session close: getBrowser,
open context and page, drive the page, store the session. A thrown JS
error is `Except.error`; the catch block closes the page (if open) and
the context before rethrowing. -/
def createSessionBody (sessionId phoneNumber : String) (env : CreateEnv) (now : Nat)
    (st : St) : Except String CreateResult × St :=
  match getBrowser env.launchOk st with
  | Except.error e => (Except.error e, st)
  | Except.ok st1 =>
    match env.step with
    | CreateStep.failNewContext msg =>
        -- context and page are both still null: the catch closes nothing
        (Except.error msg, st1)
    | CreateStep.failNewPage msg =>
        -- context was opened; page is null: the catch closes the context
        let ctx := st1.nextId
        let st2 := { st1 with liveContexts := ctx :: st1.liveContexts,
                              nextId := st1.nextId + 1 }
        let st3 := { st2 with liveContexts := st2.liveContexts.erase ctx }
        (Except.error msg, st3)
    | CreateStep.failPageStep msg =>
        -- context and page were opened: the catch closes page then context
        let ctx := st1.nextId
        let pg := st1.nextId + 1
        let st2 := { st1 with liveContexts := ctx :: st1.liveContexts,
                              livePages := pg :: st1.livePages,
                              nextId := st1.nextId + 2 }
        let lp := if pg ∈ st2.livePages then st2.livePages.erase pg else st2.livePages
        let st3 := { st2 with livePages := lp,
                              liveContexts := st2.liveContexts.erase ctx }
        (Except.error msg, st3)
    | CreateStep.ok generatedOtp =>
        let ctx := st1.nextId
        let pg := st1.nextId + 1
        let st2 := { st1 with liveContexts := ctx :: st1.liveContexts,
                              livePages := pg :: st1.livePages,
                              nextId := st1.nextId + 2 }
        let sess : Session :=
          { page := pg, context := ctx, phone := phoneNumber, otp := generatedOtp,
            createdAt := now, otpExpiresAt := now + OTP_TTL_MS,
            status := "awaiting_verification" }
        (Except.ok { success := true, session_id := sessionId, otp := generatedOtp,
                     phone := phoneNumber, expires_in_seconds := OTP_TTL_MS / 1000,
                     message := "Session created, awaiting verification" },
         { st2 with sessions := mapSet st2.sessions sessionId sess })

/-- `createSession(sessionId, phoneNumber)`: first closes a pre-existing
session with the same id, then runs the automation body. -/
def createSession (sessionId phoneNumber : String) (env : CreateEnv) (now : Nat)
    (st : St) : Except String CreateResult × St :=
  let st0 := if (mapGet st.sessions sessionId).isSome then (closeSession sessionId st).2 else st
  createSessionBody sessionId phoneNumber env now st0

-- ─────────────────────────────────────────────
--  verifySessionOTP
-- ─────────────────────────────────────────────

/-- Outcome of the Playwright steps inside the `try` of
`verifySessionOTP`: either one of waitForSelector / fill / click /
waitForTimeout throws, or the `#step3` visibility check yields a Bool
(a failing `$eval` is caught and mapped to `false` by the source). -/
inductive VerifyOutcome where
  | err (msg : String)
  | evalStep3 (visible : Bool)
deriving DecidableEq

structure VerifyResult where
  success : Bool
  verified : Bool
  otp_matched : Bool
  thread_id : Option String
  status : Option String
  retry : Bool
  message : Option String
  error : Option String
deriving DecidableEq

/-- `verifySessionOTP(sessionId, otpFromUser, threadId)`. The stored
page object is never null, so the JS guard `!session.page ||
session.page.isClosed()` reduces to the page no longer being open,
i.e. `session.page ∉ st.livePages`. -/
def verifySessionOTP (sessionId otpFromUser : String) (threadId : Option String)
    (env : VerifyOutcome) (now : Nat) (st : St) : VerifyResult × St :=
  match mapGet st.sessions sessionId with
  | none =>
      ({ success := false, verified := false, otp_matched := false, thread_id := threadId,
         status := none, retry := false, message := none,
         error := some "Session not found, request a new OTP" }, st)
  | some session =>
      if now > session.otpExpiresAt then
        ({ success := false, verified := false, otp_matched := false, thread_id := threadId,
           status := some "expired", retry := false, message := none,
           error := some "OTP expired, request a new OTP" },
         (closeSession sessionId st).2)
      else if session.page ∉ st.livePages then
        ({ success := false, verified := false, otp_matched := false, thread_id := threadId,
           status := some "expired", retry := false, message := none,
           error := some "Session timed out, request a new OTP" },
         (closeSession sessionId st).2)
      else
        match env with
        | VerifyOutcome.err msg =>
            ({ success := false, verified := false, otp_matched := false,
               thread_id := threadId, status := some "error", retry := false,
               message := none, error := some msg },
             (closeSession sessionId st).2)
        | VerifyOutcome.evalStep3 true =>
            -- session.status = "verified", then closeSession
            let newSessions := mapSet st.sessions sessionId
              ({ session with status := "verified" })
            let st1 := { st with sessions := newSessions }
            ({ success := true, verified := true, otp_matched := true,
               thread_id := threadId, status := some "success", retry := false,
               message := some "OTP verified", error := none },
             (closeSession sessionId st1).2)
        | VerifyOutcome.evalStep3 false =>
            -- session.status = "awaiting_verification", session kept for retry
            let newSessions := mapSet st.sessions sessionId
              ({ session with status := "awaiting_verification" })
            let st1 := { st with sessions := newSessions }
            ({ success := true, verified := false, otp_matched := false,
               thread_id := threadId, status := some "failed", retry := true,
               message := some "Wrong OTP code, try again", error := none }, st1)

-- ─────────────────────────────────────────────
--  getSession / getAllSessions
-- ─────────────────────────────────────────────

structure GetResult where
  success : Bool
  session_id : Option String
  phone : Option String
  otp : Option String
  status : Option String
  created_at : Option Nat
  otp_expires_at : Option Nat
  otp_expired : Option Bool
  error : Option String
deriving DecidableEq

/-- `getSession(sessionId)`: pure snapshot of one session. ISO date
formatting is dropped; timestamps stay numeric. The source mutates
nothing, so the state is returned unchanged. -/
def getSession (sessionId : String) (now : Nat) (st : St) : GetResult × St :=
  match mapGet st.sessions sessionId with
  | none =>
      ({ success := false, session_id := none, phone := none, otp := none, status := none,
         created_at := none, otp_expires_at := none, otp_expired := none,
         error := some "Session not found" }, st)
  | some s =>
      ({ success := true, session_id := some sessionId, phone := some s.phone,
         otp := some s.otp, status := some s.status, created_at := some s.createdAt,
         otp_expires_at := some s.otpExpiresAt,
         otp_expired := some (decide (now > s.otpExpiresAt)), error := none }, st)

structure SessionSummary where
  session_id : String
  phone : String
  status : String
  created_at : Nat
  otp_expired : Bool
deriving DecidableEq

structure AllSessionsResult where
  success : Bool
  total : Nat
  sessions : List SessionSummary
deriving DecidableEq

/-- `getAllSessions()`: summaries of every table entry, in table order;
`total` is the length of that list. Mutates nothing. -/
def getAllSessions (now : Nat) (st : St) : AllSessionsResult × St :=
  let sessions := st.sessions.map (fun p =>
    ({ session_id := p.1, phone := p.2.phone, status := p.2.status,
       created_at := p.2.createdAt,
       otp_expired := decide (now > p.2.otpExpiresAt) } : SessionSummary))
  ({ success := true, total := sessions.length, sessions := sessions }, st)

-- ─────────────────────────────────────────────
--  cleanupOldSessions
-- ─────────────────────────────────────────────

/-- The `for (const [id, s] of userSessions)` loop of
`cleanupOldSessions`: the iteration sequence is the entry list at loop
entry (each pass deletes at most its own current entry, which does not
disturb a JS Map iterator). -/
def cleanupLoop (now : Nat) : List (String × Session) → St → St
  | [], st => st
  | (id, s) :: rest, st =>
      if now - s.createdAt > SESSION_MAX_AGE_MS then
        cleanupLoop now rest (closeSession id st).2
      else
        cleanupLoop now rest st

def cleanupOldSessions (now : Nat) (st : St) : St :=
  cleanupLoop now st.sessions st

-- ─────────────────────────────────────────────
--  POST /close route: close every session, then reset the browser
-- ─────────────────────────────────────────────

def closeAllLoop : List String → St → St
  | [], st => st
  | id :: rest, st => closeAllLoop rest (closeSession id st).2

def routeCloseAll (st : St) : St :=
  resetBrowser (closeAllLoop (st.sessions.map Prod.fst) st)

-- ─────────────────────────────────────────────
--  Association-list lemmas (JS Map behaviour)
-- ─────────────────────────────────────────────

theorem mapGet_eq_none_of_not_mem (id : String) :
    ∀ l : List (String × Session), id ∉ l.map Prod.fst → mapGet l id = none := by
  intro l
  induction l with
  | nil => intro _; rfl
  | cons p rest ih =>
      intro h
      obtain ⟨k, v⟩ := p
      simp only [List.map_cons, List.mem_cons, not_or] at h
      have hk : ¬ k = id := fun hk => h.1 hk.symm
      simp [mapGet, hk, ih h.2]

theorem mem_of_mapGet_eq_some (id : String) (s : Session) :
    ∀ l : List (String × Session), mapGet l id = some s → (id, s) ∈ l := by
  intro l
  induction l with
  | nil => intro h; simp [mapGet] at h
  | cons p rest ih =>
      intro h
      obtain ⟨k, v⟩ := p
      by_cases hk : k = id
      · simp [mapGet, hk] at h
        simp [hk, h]
      · simp [mapGet, hk] at h
        exact List.mem_cons_of_mem _ (ih h)

theorem mapGet_isSome_iff (id : String) :
    ∀ l : List (String × Session), (mapGet l id).isSome = true ↔ id ∈ l.map Prod.fst := by
  intro l
  induction l with
  | nil => simp [mapGet]
  | cons p rest ih =>
      obtain ⟨k, v⟩ := p
      by_cases hk : k = id
      · simp [mapGet, hk]
      · have hik : ¬ id = k := fun h => hk h.symm
        simp [mapGet, hk, hik, ih]

theorem mapDelete_keys (id : String) :
    ∀ l : List (String × Session),
      (mapDelete l id).map Prod.fst = (l.map Prod.fst).erase id := by
  intro l
  induction l with
  | nil => rfl
  | cons p rest ih =>
      obtain ⟨k, v⟩ := p
      by_cases hk : k = id
      · simp [mapDelete, hk, List.erase_cons]
      · simp [mapDelete, hk, List.erase_cons, ih]

theorem mapGet_mapDelete_self (id : String) (l : List (String × Session))
    (h : (l.map Prod.fst).Nodup) : mapGet (mapDelete l id) id = none := by
  apply mapGet_eq_none_of_not_mem
  rw [mapDelete_keys]
  intro hmem
  rw [h.mem_erase_iff] at hmem
  exact hmem.1 rfl

theorem mapGet_mapDelete_ne (id id' : String) (h : id' ≠ id) :
    ∀ l : List (String × Session), mapGet (mapDelete l id) id' = mapGet l id' := by
  intro l
  induction l with
  | nil => rfl
  | cons p rest ih =>
      obtain ⟨k, v⟩ := p
      by_cases hk : k = id
      · subst hk
        have hid : ¬ k = id' := fun hk' => h hk'.symm
        simp [mapDelete, mapGet, hid]
      · simp [mapDelete, mapGet, hk, ih]

theorem mem_mapSet_keys (a id : String) (s : Session) :
    ∀ l : List (String × Session),
      (a ∈ (mapSet l id s).map Prod.fst ↔ a = id ∨ a ∈ l.map Prod.fst) := by
  intro l
  induction l with
  | nil => simp [mapSet]
  | cons p rest ih =>
      obtain ⟨k, v⟩ := p
      by_cases hk : k = id
      · simp [mapSet, hk]
      · simp [mapSet, hk, ih]
        tauto

theorem mapSet_keys_nodup (id : String) (s : Session) :
    ∀ l : List (String × Session),
      (l.map Prod.fst).Nodup → ((mapSet l id s).map Prod.fst).Nodup := by
  intro l
  induction l with
  | nil => intro _; simp [mapSet]
  | cons p rest ih =>
      intro h
      obtain ⟨k, v⟩ := p
      simp only [List.map_cons, List.nodup_cons] at h
      by_cases hk : k = id
      · subst hk
        have hset : mapSet ((k, v) :: rest) k s = (k, s) :: rest := by simp [mapSet]
        rw [hset]
        simp only [List.map_cons, List.nodup_cons]
        exact ⟨h.1, h.2⟩
      · simp only [mapSet]
        rw [if_neg hk]
        simp only [List.map_cons, List.nodup_cons]
        refine ⟨?_, ih h.2⟩
        rw [mem_mapSet_keys]
        rintro (hkid | hmem)
        · exact hk hkid
        · exact h.1 hmem

theorem mapGet_mapSet_self (id : String) (s : Session) :
    ∀ l : List (String × Session), mapGet (mapSet l id s) id = some s := by
  intro l
  induction l with
  | nil => simp [mapSet, mapGet]
  | cons p rest ih =>
      obtain ⟨k, v⟩ := p
      by_cases hk : k = id
      · simp [mapSet, mapGet, hk]
      · simp [mapSet, mapGet, hk, ih]

theorem mapGet_mapSet_ne (id id' : String) (s : Session) (h : id' ≠ id) :
    ∀ l : List (String × Session), mapGet (mapSet l id s) id' = mapGet l id' := by
  intro l
  induction l with
  | nil =>
      have hid : ¬ id = id' := fun hk => h hk.symm
      simp [mapSet, mapGet, hid]
  | cons p rest ih =>
      obtain ⟨k, v⟩ := p
      by_cases hk : k = id
      · subst hk
        have hid : ¬ k = id' := fun hk' => h hk'.symm
        simp [mapSet, mapGet, hid]
      · simp [mapSet, mapGet, hk, ih]

-- ─────────────────────────────────────────────
--  closeSession lemmas
-- ─────────────────────────────────────────────

theorem closeSession_snd_of_none (id : String) (st : St)
    (h : mapGet st.sessions id = none) : (closeSession id st).2 = st := by
  simp [closeSession, h]

theorem closeSession_snd_of_some (id : String) (st : St) (s : Session)
    (h : mapGet st.sessions id = some s) :
    (closeSession id st).2 =
      { st with sessions := mapDelete st.sessions id,
                livePages := if s.page ∈ st.livePages then st.livePages.erase s.page
                             else st.livePages,
                liveContexts := st.liveContexts.erase s.context } := by
  simp [closeSession, h]

theorem closeSession_fst_success (id : String) (st : St) :
    (closeSession id st).1.success = (mapGet st.sessions id).isSome := by
  cases h : mapGet st.sessions id <;> simp [closeSession, h]

theorem closeSession_get_ne (id id' : String) (st : St) (h : id' ≠ id) :
    mapGet ((closeSession id st).2).sessions id' = mapGet st.sessions id' := by
  cases hg : mapGet st.sessions id with
  | none => rw [closeSession_snd_of_none id st hg]
  | some s =>
      rw [closeSession_snd_of_some id st s hg]
      exact mapGet_mapDelete_ne id id' h _

theorem closeSession_get_self (id : String) (st : St)
    (hnd : (st.sessions.map Prod.fst).Nodup) :
    mapGet ((closeSession id st).2).sessions id = none := by
  cases hg : mapGet st.sessions id with
  | none => rw [closeSession_snd_of_none id st hg]; exact hg
  | some s =>
      rw [closeSession_snd_of_some id st s hg]
      exact mapGet_mapDelete_self id _ hnd

theorem closeSession_keys_nodup (id : String) (st : St)
    (hnd : (st.sessions.map Prod.fst).Nodup) :
    (((closeSession id st).2).sessions.map Prod.fst).Nodup := by
  cases hg : mapGet st.sessions id with
  | none => rw [closeSession_snd_of_none id st hg]; exact hnd
  | some s =>
      rw [closeSession_snd_of_some id st s hg]
      simp only [mapDelete_keys]
      exact hnd.erase id

theorem closeSession_livePages_subset (id : String) (st : St) :
    ((closeSession id st).2).livePages ⊆ st.livePages := by
  cases hg : mapGet st.sessions id with
  | none => rw [closeSession_snd_of_none id st hg]; exact fun _ h => h
  | some s =>
      rw [closeSession_snd_of_some id st s hg]
      by_cases hp : s.page ∈ st.livePages
      · show (if s.page ∈ st.livePages then st.livePages.erase s.page
              else st.livePages) ⊆ st.livePages
        rw [if_pos hp]
        exact List.erase_subset _ _
      · show (if s.page ∈ st.livePages then st.livePages.erase s.page
              else st.livePages) ⊆ st.livePages
        rw [if_neg hp]
        exact fun _ h => h

theorem closeSession_liveContexts_subset (id : String) (st : St) :
    ((closeSession id st).2).liveContexts ⊆ st.liveContexts := by
  cases hg : mapGet st.sessions id with
  | none => rw [closeSession_snd_of_none id st hg]; exact fun _ h => h
  | some s =>
      rw [closeSession_snd_of_some id st s hg]
      show st.liveContexts.erase s.context ⊆ st.liveContexts
      exact List.erase_subset _ _

theorem closeSession_nextId (id : String) (st : St) :
    ((closeSession id st).2).nextId = st.nextId := by
  cases hg : mapGet st.sessions id with
  | none => rw [closeSession_snd_of_none id st hg]
  | some s => rw [closeSession_snd_of_some id st s hg]

-- ─────────────────────────────────────────────
--  getBrowser / createSessionBody lemmas
-- ─────────────────────────────────────────────

theorem getBrowser_ok (lo : Bool) (st st1 : St)
    (h : getBrowser lo st = Except.ok st1) : st1 = { st with browser := true } := by
  unfold getBrowser at h
  by_cases hb : st.browser = false
  · rw [if_pos hb] at h
    cases lo with
    | false => simp at h
    | true =>
        simp only [if_pos rfl] at h
        exact (Except.ok.inj h).symm
  · rw [if_neg hb] at h
    have hb' : st.browser = true := by revert hb; cases st.browser <;> simp
    have h2 : st = st1 := Except.ok.inj h
    subst h2
    cases st with
    | mk a b c d e => simp_all

theorem createSessionBody_err (sessionId phoneNumber : String) (lo : Bool) (step : CreateStep)
    (now : Nat) (st : St) (e : String)
    (h : (createSessionBody sessionId phoneNumber ⟨lo, step⟩ now st).1 = Except.error e) :
    ((createSessionBody sessionId phoneNumber ⟨lo, step⟩ now st).2).sessions = st.sessions ∧
    ((createSessionBody sessionId phoneNumber ⟨lo, step⟩ now st).2).livePages = st.livePages ∧
    ((createSessionBody sessionId phoneNumber ⟨lo, step⟩ now st).2).liveContexts
      = st.liveContexts := by
  cases hb : st.browser <;> cases lo <;> cases step <;>
    simp_all [createSessionBody, getBrowser]

theorem createSessionBody_dead_page (sessionId phoneNumber : String) (lo : Bool)
    (step : CreateStep) (now : Nat) (st : St) (q : Nat)
    (hq : q < st.nextId) (hdead : q ∉ st.livePages) :
    q ∉ ((createSessionBody sessionId phoneNumber ⟨lo, step⟩ now st).2).livePages := by
  cases hb : st.browser <;> cases lo <;> cases step <;>
    simp_all [createSessionBody, getBrowser] <;> omega

theorem createSessionBody_dead_context (sessionId phoneNumber : String) (lo : Bool)
    (step : CreateStep) (now : Nat) (st : St) (q : Nat)
    (hq : q < st.nextId) (hdead : q ∉ st.liveContexts) :
    q ∉ ((createSessionBody sessionId phoneNumber ⟨lo, step⟩ now st).2).liveContexts := by
  cases hb : st.browser <;> cases lo <;> cases step <;>
    simp_all [createSessionBody, getBrowser] <;> omega

theorem createSessionBody_keys_nodup (sessionId phoneNumber : String) (lo : Bool)
    (step : CreateStep) (now : Nat) (st : St)
    (hnd : (st.sessions.map Prod.fst).Nodup) :
    (((createSessionBody sessionId phoneNumber ⟨lo, step⟩ now st).2).sessions.map
      Prod.fst).Nodup := by
  cases hb : st.browser <;> cases lo <;> cases step <;>
    simp_all [createSessionBody, getBrowser, mapSet_keys_nodup]

-- ─────────────────────────────────────────────
--  cleanup / close-all / reset lemmas
-- ─────────────────────────────────────────────

theorem mapGet_of_mem_nodup (k : String) (v : Session) :
    ∀ l : List (String × Session), (l.map Prod.fst).Nodup → (k, v) ∈ l →
      mapGet l k = some v := by
  intro l
  induction l with
  | nil => intro _ h; cases h
  | cons p rest ih =>
      intro hnd hmem
      obtain ⟨k2, v2⟩ := p
      simp only [List.map_cons, List.nodup_cons] at hnd
      rcases List.mem_cons.mp hmem with heq | hmem2
      · simp only [Prod.mk.injEq] at heq
        obtain ⟨h1, h2⟩ := heq
        subst h1; subst h2
        simp [mapGet]
      · have hkk2 : ¬ k2 = k := by
          intro he
          subst he
          exact hnd.1 (List.mem_map_of_mem Prod.fst hmem2)
        simp [mapGet, hkk2, ih hnd.2 hmem2]

theorem cleanupLoop_get_not_mem (now : Nat) (id : String) :
    ∀ (l : List (String × Session)) (st : St), id ∉ l.map Prod.fst →
      mapGet (cleanupLoop now l st).sessions id = mapGet st.sessions id := by
  intro l
  induction l with
  | nil => intro st _; rfl
  | cons p rest ih =>
      intro st h
      obtain ⟨k, s⟩ := p
      simp only [List.map_cons, List.mem_cons, not_or] at h
      by_cases hc : now - s.createdAt > SESSION_MAX_AGE_MS
      · simp only [cleanupLoop]
        rw [if_pos hc, ih _ h.2, closeSession_get_ne k id st h.1]
      · simp only [cleanupLoop]
        rw [if_neg hc, ih _ h.2]

theorem ite_mem_cons_of_ne (id k : String) (rest : List String) (hid : ¬ id = k)
    (C : Prop) [Decidable C] (s : Session) :
    (if id ∈ rest ∧ C then (none : Option Session) else some s) =
    (if id ∈ k :: rest ∧ C then none else some s) := by
  by_cases hmem : id ∈ rest
  · by_cases hcs : C
    · rw [if_pos ⟨hmem, hcs⟩, if_pos ⟨List.mem_cons_of_mem _ hmem, hcs⟩]
    · rw [if_neg (fun h2 => hcs h2.2), if_neg (fun h2 => hcs h2.2)]
  · have h1 : id ∉ k :: rest := by
      intro h2
      rcases List.mem_cons.mp h2 with h3 | h3
      · exact hid h3
      · exact hmem h3
    rw [if_neg (fun h2 => hmem h2.1), if_neg (fun h2 => h1 h2.1)]

theorem cleanupLoop_get (now : Nat) (id : String) :
    ∀ (l : List (String × Session)) (st : St),
      (st.sessions.map Prod.fst).Nodup →
      (l.map Prod.fst).Nodup →
      (∀ kv ∈ l, mapGet st.sessions kv.1 = some kv.2) →
      ∀ s : Session, mapGet st.sessions id = some s →
      mapGet (cleanupLoop now l st).sessions id =
        (if id ∈ l.map Prod.fst ∧ SESSION_MAX_AGE_MS < now - s.createdAt then none
         else some s) := by
  intro l
  induction l with
  | nil =>
      intro st _ _ _ s hs
      simp [cleanupLoop, hs]
  | cons p rest ih =>
      intro st hnd hlnd hinv s hs
      obtain ⟨k, sk⟩ := p
      simp only [List.map_cons, List.nodup_cons] at hlnd
      have hk : mapGet st.sessions k = some sk := hinv (k, sk) (List.mem_cons_self _ _)
      by_cases hc : SESSION_MAX_AGE_MS < now - sk.createdAt
      · simp only [cleanupLoop]
        rw [if_pos hc]
        by_cases hid : id = k
        · subst hid
          have hssk : s = sk := by
            rw [hs] at hk
            exact Option.some.inj hk
          subst hssk
          rw [cleanupLoop_get_not_mem now id rest _ hlnd.1]
          rw [closeSession_get_self id st hnd]
          have hcond : id ∈ List.map Prod.fst ((id, s) :: rest) ∧
              SESSION_MAX_AGE_MS < now - s.createdAt := ⟨by simp, hc⟩
          rw [if_pos hcond]
        · have hinv2 : ∀ kv ∈ rest, mapGet ((closeSession k st).2).sessions kv.1 = some kv.2 := by
            intro kv hkv
            have hne : kv.1 ≠ k := by
              intro he
              exact hlnd.1 (he ▸ List.mem_map_of_mem Prod.fst hkv)
            rw [closeSession_get_ne k kv.1 st hne]
            exact hinv kv (List.mem_cons_of_mem _ hkv)
          have hnd2 := closeSession_keys_nodup k st hnd
          have hs2 : mapGet ((closeSession k st).2).sessions id = some s := by
            rw [closeSession_get_ne k id st hid]
            exact hs
          rw [ih _ hnd2 hlnd.2 hinv2 s hs2]
          exact ite_mem_cons_of_ne id k _ hid _ s
      · simp only [cleanupLoop]
        rw [if_neg hc]
        by_cases hid : id = k
        · subst hid
          have hssk : s = sk := by
            rw [hs] at hk
            exact Option.some.inj hk
          subst hssk
          rw [cleanupLoop_get_not_mem now id rest _ hlnd.1, hs]
          have hcond : ¬ (id ∈ List.map Prod.fst ((id, s) :: rest) ∧
              SESSION_MAX_AGE_MS < now - s.createdAt) := fun h2 => hc h2.2
          rw [if_neg hcond]
        · rw [ih st hnd hlnd.2 (fun kv hkv => hinv kv (List.mem_cons_of_mem _ hkv)) s hs]
          exact ite_mem_cons_of_ne id k _ hid _ s

theorem closeAllLoop_sessions :
    ∀ (l : List String) (st : St), st.sessions.map Prod.fst = l → l.Nodup →
      (closeAllLoop l st).sessions = [] := by
  intro l
  induction l with
  | nil =>
      intro st h _
      have h0 : st.sessions = [] := List.map_eq_nil_iff.mp h
      simp [closeAllLoop, h0]
  | cons k rest ih =>
      intro st h hnd
      cases hs : st.sessions with
      | nil => rw [hs] at h; simp at h
      | cons p tl =>
          obtain ⟨k2, v⟩ := p
          rw [hs] at h
          simp only [List.map_cons, List.cons.injEq] at h
          obtain ⟨hk2, htl⟩ := h
          subst hk2
          have hget : mapGet st.sessions k2 = some v := by
            rw [hs]
            simp [mapGet]
          simp only [closeAllLoop]
          apply ih
          · rw [closeSession_snd_of_some k2 st v hget]
            show (mapDelete st.sessions k2).map Prod.fst = rest
            rw [hs]
            simp [mapDelete, htl]
          · exact hnd.of_cons

theorem resetBrowser_sessions (st : St) : (resetBrowser st).sessions = st.sessions := by
  unfold resetBrowser
  cases hb : st.browser <;> simp [hb]

theorem resetBrowser_browser (st : St) : (resetBrowser st).browser = false := by
  unfold resetBrowser
  cases hb : st.browser <;> simp [hb]

-- ─────────────────────────────────────────────
--  Concrete fixtures used by the witnesses
-- ─────────────────────────────────────────────

def sessW : Session :=
  { page := 1, context := 0, phone := "0812345678", otp := "123456",
    createdAt := 0, otpExpiresAt := OTP_TTL_MS, status := "awaiting_verification" }

def stW : St :=
  { sessions := [("alice", sessW)], browser := true,
    livePages := [1], liveContexts := [0], nextId := 2 }

/-- Like `stW`, but the tab of the stored session has already been
closed (its page id is not live). -/
def stDeadW : St :=
  { sessions := [("alice", sessW)], browser := true,
    livePages := [], liveContexts := [0], nextId := 2 }

-- ─────────────────────────────────────────────
--  Claims
-- ─────────────────────────────────────────────

/-- C1: calling createSession with an id already bound in the session
table closes the prior session first: whatever the automation outcome,
the old tab and old context are not live in the resulting state, and
the table keeps at most one entry per session key (its key list stays
duplicate-free). -/
theorem claim_C1 (st : St) (hWF : st.WF) (sessionId phoneNumber : String)
    (env : CreateEnv) (now : Nat) (old : Session)
    (hold : mapGet st.sessions sessionId = some old) :
    old.page ∉ ((createSession sessionId phoneNumber env now st).2).livePages ∧
    old.context ∉ ((createSession sessionId phoneNumber env now st).2).liveContexts ∧
    (((createSession sessionId phoneNumber env now st).2).sessions.map Prod.fst).Nodup := by
  obtain ⟨hkeys, hlp, hlc, hbound, _, _⟩ := hWF
  obtain ⟨lo, step⟩ := env
  have hmem : (sessionId, old) ∈ st.sessions := mem_of_mapGet_eq_some _ _ _ hold
  have hpb : old.page < st.nextId := (hbound _ hmem).1
  have hcb : old.context < st.nextId := (hbound _ hmem).2
  have hsome : (mapGet st.sessions sessionId).isSome = true := by rw [hold]; rfl
  have hrw : createSession sessionId phoneNumber ⟨lo, step⟩ now st
      = createSessionBody sessionId phoneNumber ⟨lo, step⟩ now
          ((closeSession sessionId st).2) := by
    simp [createSession, hsome]
  rw [hrw]
  have h1 : old.page ∉ ((closeSession sessionId st).2).livePages := by
    rw [closeSession_snd_of_some sessionId st old hold]
    show old.page ∉ (if old.page ∈ st.livePages then st.livePages.erase old.page
                     else st.livePages)
    by_cases hp : old.page ∈ st.livePages
    · rw [if_pos hp]
      intro hmem2
      exact (hlp.mem_erase_iff.mp hmem2).1 rfl
    · rw [if_neg hp]
      exact hp
  have h2 : old.context ∉ ((closeSession sessionId st).2).liveContexts := by
    rw [closeSession_snd_of_some sessionId st old hold]
    show old.context ∉ st.liveContexts.erase old.context
    intro hmem2
    exact (hlc.mem_erase_iff.mp hmem2).1 rfl
  have h4 : ((closeSession sessionId st).2).nextId = st.nextId := closeSession_nextId _ _
  refine ⟨?_, ?_, ?_⟩
  · exact createSessionBody_dead_page _ _ lo step now _ old.page (by rw [h4]; exact hpb) h1
  · exact createSessionBody_dead_context _ _ lo step now _ old.context
      (by rw [h4]; exact hcb) h2
  · exact createSessionBody_keys_nodup _ _ lo step now _
      (closeSession_keys_nodup _ _ hkeys)

theorem claim_C1_witness :
    stW.WF ∧ mapGet stW.sessions "alice" = some sessW ∧
    (sessW.page ∉ ((createSession "alice" "0899999999"
        { launchOk := true, step := CreateStep.ok "654321" } 5 stW).2).livePages ∧
     sessW.context ∉ ((createSession "alice" "0899999999"
        { launchOk := true, step := CreateStep.ok "654321" } 5 stW).2).liveContexts ∧
     (((createSession "alice" "0899999999"
        { launchOk := true, step := CreateStep.ok "654321" } 5 stW).2).sessions.map
          Prod.fst).Nodup) :=
  ⟨by decide, by decide,
   claim_C1 stW (by decide) "alice" "0899999999"
     { launchOk := true, step := CreateStep.ok "654321" } 5 sessW (by decide)⟩

/-- C2: verifying a session whose OTP expiry timestamp lies strictly in
the past yields success false, verified false and status "expired", and
the session is removed from the table. -/
theorem claim_C2 (st : St) (hWF : st.WF) (sessionId otpFromUser : String)
    (threadId : Option String) (env : VerifyOutcome) (now : Nat) (s : Session)
    (hs : mapGet st.sessions sessionId = some s) (hexp : now > s.otpExpiresAt) :
    (verifySessionOTP sessionId otpFromUser threadId env now st).1.success = false ∧
    (verifySessionOTP sessionId otpFromUser threadId env now st).1.verified = false ∧
    (verifySessionOTP sessionId otpFromUser threadId env now st).1.status = some "expired" ∧
    mapGet ((verifySessionOTP sessionId otpFromUser threadId env now st).2).sessions
      sessionId = none := by
  have hclose := closeSession_get_self sessionId st hWF.1
  refine ⟨?_, ?_, ?_, ?_⟩ <;> simp [verifySessionOTP, hs, hexp, hclose]

theorem claim_C2_witness :
    stW.WF ∧ mapGet stW.sessions "alice" = some sessW ∧ 300001 > sessW.otpExpiresAt ∧
    ((verifySessionOTP "alice" "123456" none (VerifyOutcome.evalStep3 true) 300001
        stW).1.success = false ∧
     (verifySessionOTP "alice" "123456" none (VerifyOutcome.evalStep3 true) 300001
        stW).1.verified = false ∧
     (verifySessionOTP "alice" "123456" none (VerifyOutcome.evalStep3 true) 300001
        stW).1.status = some "expired" ∧
     mapGet ((verifySessionOTP "alice" "123456" none (VerifyOutcome.evalStep3 true) 300001
        stW).2).sessions "alice" = none) :=
  ⟨by decide, by decide, by decide,
   claim_C2 stW (by decide) "alice" "123456" none (VerifyOutcome.evalStep3 true) 300001
     sessW (by decide) (by decide)⟩

/-- C3: for an existing session that is not expired and whose page is
still open: when the page reports a match the session is removed and
the result has verified true; when it does not, the result reports
success with retry and the session stays in the table with status
awaiting_verification. -/
theorem claim_C3 (st : St) (hWF : st.WF) (sessionId otpFromUser : String)
    (threadId : Option String) (now : Nat) (s : Session)
    (hs : mapGet st.sessions sessionId = some s) (hexp : ¬ now > s.otpExpiresAt)
    (hlive : s.page ∈ st.livePages) :
    ((verifySessionOTP sessionId otpFromUser threadId (VerifyOutcome.evalStep3 true) now
        st).1.success = true ∧
     (verifySessionOTP sessionId otpFromUser threadId (VerifyOutcome.evalStep3 true) now
        st).1.verified = true ∧
     mapGet ((verifySessionOTP sessionId otpFromUser threadId (VerifyOutcome.evalStep3 true)
        now st).2).sessions sessionId = none) ∧
    ((verifySessionOTP sessionId otpFromUser threadId (VerifyOutcome.evalStep3 false) now
        st).1.success = true ∧
     (verifySessionOTP sessionId otpFromUser threadId (VerifyOutcome.evalStep3 false) now
        st).1.verified = false ∧
     (verifySessionOTP sessionId otpFromUser threadId (VerifyOutcome.evalStep3 false) now
        st).1.retry = true ∧
     (verifySessionOTP sessionId otpFromUser threadId (VerifyOutcome.evalStep3 false) now
        st).1.status = some "failed" ∧
     mapGet ((verifySessionOTP sessionId otpFromUser threadId (VerifyOutcome.evalStep3 false)
        now st).2).sessions sessionId
       = some ({ s with status := "awaiting_verification" })) := by
  constructor
  · have hnd1 : ((mapSet st.sessions sessionId
        ({ s with status := "verified" })).map Prod.fst).Nodup :=
      mapSet_keys_nodup _ _ _ hWF.1
    have hclose : mapGet ((closeSession sessionId
        { st with sessions := mapSet st.sessions sessionId ({ s with status := "verified" }) }).2).sessions sessionId = none :=
      closeSession_get_self _ _ hnd1
    refine ⟨?_, ?_, ?_⟩ <;> simp [verifySessionOTP, hs, hexp, hlive, hclose]
  · refine ⟨?_, ?_, ?_, ?_, ?_⟩ <;>
      simp [verifySessionOTP, hs, hexp, hlive, mapGet_mapSet_self]

theorem claim_C3_witness :
    stW.WF ∧ mapGet stW.sessions "alice" = some sessW ∧ ¬ 100 > sessW.otpExpiresAt ∧
    sessW.page ∈ stW.livePages ∧
    (mapGet ((verifySessionOTP "alice" "123456" none (VerifyOutcome.evalStep3 true) 100
        stW).2).sessions "alice" = none ∧
     mapGet ((verifySessionOTP "alice" "000000" none (VerifyOutcome.evalStep3 false) 100
        stW).2).sessions "alice"
       = some ({ sessW with status := "awaiting_verification" })) :=
  ⟨by decide, by decide, by decide, by decide,
   (claim_C3 stW (by decide) "alice" "123456" none 100 sessW (by decide) (by decide)
      (by decide)).1.2.2,
   (claim_C3 stW (by decide) "alice" "000000" none 100 sessW (by decide) (by decide)
      (by decide)).2.2.2.2.2⟩

/-- C4: one cleanup sweep removes a stored session exactly when its age
now - createdAt exceeds the maximum session age, independently of its
OTP expiry; a session at or under the maximum age keeps its entry
unchanged. -/
theorem claim_C4 (st : St) (hWF : st.WF) (now : Nat) (id : String) (s : Session)
    (hs : mapGet st.sessions id = some s) :
    mapGet ((cleanupOldSessions now st)).sessions id =
      (if SESSION_MAX_AGE_MS < now - s.createdAt then none else some s) := by
  have hnd := hWF.1
  have hinv : ∀ kv ∈ st.sessions, mapGet st.sessions kv.1 = some kv.2 := by
    intro kv hkv
    exact mapGet_of_mem_nodup kv.1 kv.2 st.sessions hnd hkv
  unfold cleanupOldSessions
  rw [cleanupLoop_get now id st.sessions st hnd hnd hinv s hs]
  have hmem : id ∈ st.sessions.map Prod.fst := by
    rw [← mapGet_isSome_iff, hs]
    rfl
  by_cases hc : SESSION_MAX_AGE_MS < now - s.createdAt
  · rw [if_pos ⟨hmem, hc⟩, if_pos hc]
  · rw [if_neg (fun h2 => hc h2.2), if_neg hc]

theorem claim_C4_witness :
    stW.WF ∧ mapGet stW.sessions "alice" = some sessW ∧
    mapGet ((cleanupOldSessions 1800001 stW)).sessions "alice" =
      (if SESSION_MAX_AGE_MS < 1800001 - sessW.createdAt then none else some sessW) ∧
    mapGet ((cleanupOldSessions 10 stW)).sessions "alice" =
      (if SESSION_MAX_AGE_MS < 10 - sessW.createdAt then none else some sessW) :=
  ⟨by decide, by decide,
   claim_C4 stW (by decide) 1800001 "alice" sessW (by decide),
   claim_C4 stW (by decide) 10 "alice" sessW (by decide)⟩

/-- C5: when createSession fails at any automation step, every tab and
context opened for that attempt has been released by the time the error
propagates: the sets of live tabs and live contexts after the failed
call are contained in those before it. -/
theorem claim_C5 (st : St) (sessionId phoneNumber : String) (env : CreateEnv)
    (now : Nat) (e : String)
    (herr : (createSession sessionId phoneNumber env now st).1 = Except.error e) :
    ((createSession sessionId phoneNumber env now st).2).livePages ⊆ st.livePages ∧
    ((createSession sessionId phoneNumber env now st).2).liveContexts
      ⊆ st.liveContexts := by
  obtain ⟨lo, step⟩ := env
  by_cases hsome : (mapGet st.sessions sessionId).isSome = true
  · have hrw : createSession sessionId phoneNumber ⟨lo, step⟩ now st
        = createSessionBody sessionId phoneNumber ⟨lo, step⟩ now
            ((closeSession sessionId st).2) := by
      simp [createSession, hsome]
    rw [hrw] at herr ⊢
    have h3 := createSessionBody_err _ _ _ _ _ _ _ herr
    constructor
    · rw [h3.2.1]
      exact closeSession_livePages_subset _ _
    · rw [h3.2.2]
      exact closeSession_liveContexts_subset _ _
  · have hrw : createSession sessionId phoneNumber ⟨lo, step⟩ now st
        = createSessionBody sessionId phoneNumber ⟨lo, step⟩ now st := by
      simp [createSession, hsome]
    rw [hrw] at herr ⊢
    have h3 := createSessionBody_err _ _ _ _ _ _ _ herr
    rw [h3.2.1, h3.2.2]
    exact ⟨fun _ h => h, fun _ h => h⟩

theorem claim_C5_witness :
    (createSession "bob" "0811111111"
        { launchOk := true, step := CreateStep.failPageStep "nav timeout" } 5 stW).1
      = Except.error "nav timeout" ∧
    (((createSession "bob" "0811111111"
        { launchOk := true, step := CreateStep.failPageStep "nav timeout" } 5
        stW).2).livePages ⊆ stW.livePages ∧
     ((createSession "bob" "0811111111"
        { launchOk := true, step := CreateStep.failPageStep "nav timeout" } 5
        stW).2).liveContexts ⊆ stW.liveContexts) :=
  ⟨by rfl,
   claim_C5 stW "bob" "0811111111"
     { launchOk := true, step := CreateStep.failPageStep "nav timeout" } 5 "nav timeout"
     (by rfl)⟩

/-- C6: failures while verifying an existing unexpired session — the
page being closed already, or an automation error thrown while
submitting the code — close the session and remove it from the table
before the error result is returned (success false). -/
theorem claim_C6 (st : St) (hWF : st.WF) (sessionId otpFromUser : String)
    (threadId : Option String) (now : Nat) (s : Session)
    (hs : mapGet st.sessions sessionId = some s) (hexp : ¬ now > s.otpExpiresAt) :
    (s.page ∉ st.livePages → ∀ env : VerifyOutcome,
      (verifySessionOTP sessionId otpFromUser threadId env now st).1.success = false ∧
      (verifySessionOTP sessionId otpFromUser threadId env now st).1.status
        = some "expired" ∧
      mapGet ((verifySessionOTP sessionId otpFromUser threadId env now st).2).sessions
        sessionId = none) ∧
    (s.page ∈ st.livePages → ∀ msg : String,
      (verifySessionOTP sessionId otpFromUser threadId (VerifyOutcome.err msg) now
        st).1.success = false ∧
      (verifySessionOTP sessionId otpFromUser threadId (VerifyOutcome.err msg) now
        st).1.status = some "error" ∧
      mapGet ((verifySessionOTP sessionId otpFromUser threadId (VerifyOutcome.err msg) now
        st).2).sessions sessionId = none) := by
  have hclose := closeSession_get_self sessionId st hWF.1
  constructor
  · intro hdead env
    refine ⟨?_, ?_, ?_⟩ <;> simp [verifySessionOTP, hs, hexp, hdead, hclose]
  · intro hlive msg
    refine ⟨?_, ?_, ?_⟩ <;> simp [verifySessionOTP, hs, hexp, hlive, hclose]

theorem claim_C6_witness :
    stDeadW.WF ∧ mapGet stDeadW.sessions "alice" = some sessW ∧
    ¬ 100 > sessW.otpExpiresAt ∧ sessW.page ∉ stDeadW.livePages ∧
    sessW.page ∈ stW.livePages ∧
    (mapGet ((verifySessionOTP "alice" "123456" none (VerifyOutcome.evalStep3 true) 100
        stDeadW).2).sessions "alice" = none ∧
     mapGet ((verifySessionOTP "alice" "123456" none (VerifyOutcome.err "page crashed") 100
        stW).2).sessions "alice" = none) :=
  ⟨by decide, by decide, by decide, by decide, by decide,
   ((claim_C6 stDeadW (by decide) "alice" "123456" none 100 sessW (by decide)
       (by decide)).1 (by decide) (VerifyOutcome.evalStep3 true)).2.2,
   ((claim_C6 stW (by decide) "alice" "123456" none 100 sessW (by decide)
       (by decide)).2 (by decide) "page crashed").2.2⟩

/-- C7: the close-all route leaves the session table empty and the
browser handle unset, so the next createSession call must launch the
browser afresh: with a failing launch it surfaces the launch error. -/
theorem claim_C7 (st : St) (hWF : st.WF) :
    (routeCloseAll st).sessions = [] ∧
    (routeCloseAll st).browser = false ∧
    (∀ sessionId phoneNumber : String, ∀ step : CreateStep, ∀ now : Nat,
      (createSession sessionId phoneNumber { launchOk := false, step := step } now
        (routeCloseAll st)).1 = Except.error "browser launch failed") := by
  have hempty : (closeAllLoop (st.sessions.map Prod.fst) st).sessions = [] :=
    closeAllLoop_sessions _ st rfl hWF.1
  have h1 : (routeCloseAll st).sessions = [] := by
    unfold routeCloseAll
    rw [resetBrowser_sessions, hempty]
  have h2 : (routeCloseAll st).browser = false := by
    unfold routeCloseAll
    exact resetBrowser_browser _
  refine ⟨h1, h2, ?_⟩
  intro sessionId phoneNumber step now
  have hget : mapGet (routeCloseAll st).sessions sessionId = none := by
    rw [h1]
    rfl
  simp [createSession, createSessionBody, getBrowser, hget, h2]

theorem claim_C7_witness :
    stW.WF ∧
    ((routeCloseAll stW).sessions = [] ∧
     (routeCloseAll stW).browser = false ∧
     (∀ sessionId phoneNumber : String, ∀ step : CreateStep, ∀ now : Nat,
       (createSession sessionId phoneNumber { launchOk := false, step := step } now
         (routeCloseAll stW)).1 = Except.error "browser launch failed")) :=
  ⟨by decide, claim_C7 stW (by decide)⟩

/-- C8: the sessions listing enumerates exactly the table entries: its
total equals the number of listed ids, the listed ids are pairwise
distinct, and an individual close call succeeds exactly on those ids —
so the total equals the number of ids removable via close. -/
theorem claim_C8 (st : St) (hWF : st.WF) (now : Nat) :
    (getAllSessions now st).1.total = (st.sessions.map Prod.fst).length ∧
    (st.sessions.map Prod.fst).Nodup ∧
    (∀ id : String, (closeSession id st).1.success = true ↔
       id ∈ st.sessions.map Prod.fst) := by
  refine ⟨?_, hWF.1, ?_⟩
  · simp [getAllSessions]
  · intro id
    rw [closeSession_fst_success]
    exact mapGet_isSome_iff id st.sessions

theorem claim_C8_witness :
    stW.WF ∧
    ((getAllSessions 0 stW).1.total = (stW.sessions.map Prod.fst).length ∧
     (stW.sessions.map Prod.fst).Nodup ∧
     (∀ id : String, (closeSession id stW).1.success = true ↔
        id ∈ stW.sessions.map Prod.fst)) :=
  ⟨by decide, claim_C8 stW (by decide) 0⟩

/-- C9: if createSession throws, the session table afterwards has no
entry for the requested id — in particular a pre-existing session with
that id has been destroyed, not restored. -/
theorem claim_C9 (st : St) (hWF : st.WF) (sessionId phoneNumber : String)
    (env : CreateEnv) (now : Nat) (e : String)
    (herr : (createSession sessionId phoneNumber env now st).1 = Except.error e) :
    mapGet ((createSession sessionId phoneNumber env now st).2).sessions sessionId
      = none := by
  obtain ⟨lo, step⟩ := env
  by_cases hsome : (mapGet st.sessions sessionId).isSome = true
  · have hrw : createSession sessionId phoneNumber ⟨lo, step⟩ now st
        = createSessionBody sessionId phoneNumber ⟨lo, step⟩ now
            ((closeSession sessionId st).2) := by
      simp [createSession, hsome]
    rw [hrw] at herr ⊢
    rw [(createSessionBody_err _ _ _ _ _ _ _ herr).1]
    exact closeSession_get_self sessionId st hWF.1
  · have hrw : createSession sessionId phoneNumber ⟨lo, step⟩ now st
        = createSessionBody sessionId phoneNumber ⟨lo, step⟩ now st := by
      simp [createSession, hsome]
    rw [hrw] at herr ⊢
    rw [(createSessionBody_err _ _ _ _ _ _ _ herr).1]
    cases hget : mapGet st.sessions sessionId with
    | none => rfl
    | some s => rw [hget] at hsome; simp at hsome

theorem claim_C9_witness :
    stW.WF ∧
    (createSession "alice" "0822222222"
        { launchOk := true, step := CreateStep.failNewContext "context failed" } 5 stW).1
      = Except.error "context failed" ∧
    mapGet ((createSession "alice" "0822222222"
        { launchOk := true, step := CreateStep.failNewContext "context failed" } 5
        stW).2).sessions "alice" = none :=
  ⟨by decide, by rfl,
   claim_C9 stW (by decide) "alice" "0822222222"
     { launchOk := true, step := CreateStep.failNewContext "context failed" } 5
     "context failed" (by rfl)⟩

/-- C10: getSession and getAllSessions are read-only — both return the
state unchanged — and querying an expired session reports otp_expired
true (with success true) without removing it. -/
theorem claim_C10 (st : St) (sessionId : String) (now : Nat) :
    (getSession sessionId now st).2 = st ∧
    (getAllSessions now st).2 = st ∧
    (∀ s : Session, mapGet st.sessions sessionId = some s → now > s.otpExpiresAt →
      (getSession sessionId now st).1.success = true ∧
      (getSession sessionId now st).1.otp_expired = some true) := by
  refine ⟨?_, rfl, ?_⟩
  · cases h : mapGet st.sessions sessionId with
    | none => simp [getSession, h]
    | some s => simp [getSession, h]
  · intro s hs hexp
    constructor <;> simp [getSession, hs, hexp]

theorem claim_C10_witness :
    (getSession "alice" 300001 stW).2 = stW ∧
    (getAllSessions 300001 stW).2 = stW ∧
    (getSession "alice" 300001 stW).1.success = true ∧
    (getSession "alice" 300001 stW).1.otp_expired = some true :=
  ⟨(claim_C10 stW "alice" 300001).1,
   (claim_C10 stW "alice" 300001).2.1,
   ((claim_C10 stW "alice" 300001).2.2 sessW (by decide) (by decide)).1,
   ((claim_C10 stW "alice" 300001).2.2 sessW (by decide) (by decide)).2⟩
